import Mathlib

/-!
Verification of the WaterGuardian cooling-water monitor
(`main_complete.py`): threshold classifier, AI cost gate,
ingestion orchestration, recommendation extraction, and the
query/clear endpoints, shallowly embedded in Lean.

Sensor values (floats in the source) are modelled as rationals;
severity levels are the literal strings used by the source.
-/

namespace WaterGuardian

/-- `THRESHOLDS["TDS"]` from the source. -/
structure TDSThresholds where
  optimal_min : ℚ
  optimal_max : ℚ
  warning_max : ℚ
  critical_max : ℚ

/-- `THRESHOLDS["temperature"]` from the source. -/
structure TempThresholds where
  optimal_min : ℚ
  optimal_max : ℚ
  warning_min : ℚ
  warning_max : ℚ
  critical_min : ℚ
  critical_max : ℚ

/-- The TDS half of the `THRESHOLDS` table. -/
def THRESHOLDS_TDS : TDSThresholds :=
  { optimal_min := 60, optimal_max := 500, warning_max := 1200, critical_max := 1500 }

/-- The temperature half of the `THRESHOLDS` table. -/
def THRESHOLDS_temperature : TempThresholds :=
  { optimal_min := 18, optimal_max := 27, warning_min := 15, warning_max := 32,
    critical_min := 10, critical_max := 35 }

/-- Issue string for `tds < optimal_min` (f-string of line 84). -/
def tdsTooLowIssue (tds : ℚ) : String :=
  "TDS " ++ toString tds ++ " ppm - TOO LOW (corrosion risk)"

/-- Issue string for `tds > critical_max` (f-string of line 87). -/
def tdsCriticalIssue (tds : ℚ) : String :=
  "TDS " ++ toString tds ++ " ppm - CRITICAL SCALE RISK (>1500 ppm)"

/-- Issue string for `tds > warning_max` (f-string of line 90). -/
def tdsWarningIssue (tds : ℚ) : String :=
  "TDS " ++ toString tds ++ " ppm - SCALE FORMATION WARNING (>1200 ppm)"

/-- Issue string for `tds > optimal_max` (f-string of line 94). -/
def tdsAboveOptimalIssue (tds : ℚ) : String :=
  "TDS " ++ toString tds ++ " ppm - ABOVE OPTIMAL (>500 ppm)"

/-- Issue string for the temperature-critical branch (line 100). -/
def tempCriticalIssue (temp : ℚ) : String :=
  "Temperature " ++ toString temp ++ "C - CRITICAL (system malfunction)"

/-- Issue string for the temperature-warning branch (line 103). -/
def tempWarningIssue (temp : ℚ) : String :=
  "Temperature " ++ toString temp ++ "C - EFFICIENCY WARNING"

/-- Issue string for the temperature above-optimal branch (line 107). -/
def tempAboveOptimalIssue (temp : ℚ) : String :=
  "Temperature " ++ toString temp ++ "C - ABOVE OPTIMAL (reduced cooling)"

/-- The TDS `if/elif` chain of `check_thresholds` (lines 83-96), acting on
the accumulated `(issues, severity)` state. -/
def tdsStep (tds : ℚ) (st : List String × String) : List String × String :=
  let issues := st.1
  let severity := st.2
  if tds < THRESHOLDS_TDS.optimal_min then
    (issues ++ [tdsTooLowIssue tds], "warning")
  else if tds > THRESHOLDS_TDS.critical_max then
    (issues ++ [tdsCriticalIssue tds], "critical")
  else if tds > THRESHOLDS_TDS.warning_max then
    (issues ++ [tdsWarningIssue tds], if severity = "safe" then "warning" else severity)
  else if tds > THRESHOLDS_TDS.optimal_max then
    (issues ++ [tdsAboveOptimalIssue tds], if severity = "safe" then "warning" else severity)
  else
    (issues, severity)

/-- The temperature `if/elif` chain of `check_thresholds` (lines 99-109),
acting on the accumulated `(issues, severity)` state. -/
def tempStep (temp : ℚ) (st : List String × String) : List String × String :=
  let issues := st.1
  let severity := st.2
  if temp < THRESHOLDS_temperature.critical_min ∨ temp > THRESHOLDS_temperature.critical_max then
    (issues ++ [tempCriticalIssue temp], "critical")
  else if temp < THRESHOLDS_temperature.warning_min ∨ temp > THRESHOLDS_temperature.warning_max then
    (issues ++ [tempWarningIssue temp], if severity = "safe" then "warning" else severity)
  else if temp > THRESHOLDS_temperature.optimal_max then
    (issues ++ [tempAboveOptimalIssue temp], if severity = "safe" then "warning" else severity)
  else
    (issues, severity)

/-- `check_thresholds(tds, temp)` from the source: returns
`(should_trigger_ai, severity, issues)` where `should_trigger_ai`
is `severity != "safe"`. -/
def check_thresholds (tds temp : ℚ) : Bool × String × List String :=
  let st := tempStep temp (tdsStep tds ([], "safe"))
  (st.2 != "safe", st.2, st.1)

/-! ### Recommendation extraction (`call_ai`, lines 230-256)

Python strings are modelled as `List Char`; the helpers below embed the
string operations the extraction loop uses (`split('\n')`, `.upper()`,
`in`, `.strip()`, `.lstrip(...)`, slicing, `.startswith`). -/

/-- `text.split('\n')` on a character list. -/
def splitNl : List Char → List (List Char)
  | [] => [[]]
  | c :: cs =>
    let r := splitNl cs
    if c = '\n' then [] :: r
    else
      match r with
      | [] => [[c]]
      | l :: ls => (c :: l) :: ls

/-- Python `pat in s` substring test. -/
def isSubstr (pat : List Char) : List Char → Bool
  | [] => pat.isEmpty
  | c :: cs => pat.isPrefixOf (c :: cs) || isSubstr pat cs

/-- Python `s.strip()`: drop whitespace at both ends. -/
def pyStrip (cs : List Char) : List Char :=
  ((cs.dropWhile Char.isWhitespace).reverse.dropWhile Char.isWhitespace).reverse

/-- The character set of `line.lstrip('123.-‚Ä¢ ')` (line 247; the bullet
appears in the source as the three bytes `‚Ä¢`). -/
def lstripChars : List Char := ['1', '2', '3', '.', '-', '‚', 'Ä', '¢', ' ']

/-- `line.lstrip('123.-‚Ä¢ ')` on a character list. -/
def lstripRec (cs : List Char) : List Char :=
  cs.dropWhile (fun c => lstripChars.contains c)

/-- One iteration of the extraction loop (lines 235-249): state is
`(in_actions, recs)`. -/
def recStep (st : Bool × List (List Char)) (line : List Char) : Bool × List (List Char) :=
  if isSubstr ("ACTIONS:".data) (line.map Char.toUpper) then
    (true, st.2)
  else if st.1 then
    let line := pyStrip line
    if !line.isEmpty &&
        ([['1', '.'], ['2', '.'], ['3', '.']].contains (line.take 2)
          || ['-'].isPrefixOf line) then
      let clean_rec := pyStrip (lstripRec line)
      if !clean_rec.isEmpty then (st.1, st.2 ++ [clean_rec]) else (st.1, st.2)
    else (st.1, st.2)
  else (st.1, st.2)

/-- The raw `recs` list produced by the extraction loop over the AI text. -/
def extract_recs (text : List Char) : List (List Char) :=
  ((splitNl text).foldl recStep (false, [])).2

/-- The hard-coded fallback recommendations (lines 252-256). -/
def fallback_recs : List (List Char) :=
  ["Schedule immediate water treatment system inspection".data,
   "Increase monitoring frequency to every 5 minutes".data,
   "Contact cooling system maintenance team".data]

/-- The recommendations stored and returned by `call_ai`: the extracted
list, the fallback when it is empty, truncated to 3 (`recs[:3]`). -/
def final_recs (text : List Char) : List (List Char) :=
  let recs := extract_recs text
  let recs := if recs.isEmpty then fallback_recs else recs
  recs.take 3

/-! ### Data model and ingestion orchestration -/

/-- A row of the `readings` table. -/
structure ReadingRow where
  id : ℕ
  timestamp : ℤ
  TDS : ℚ
  temperature : ℚ
  is_safe : Bool
  ai_triggered : Bool
  deriving Repr, DecidableEq

/-- A row of the `analyses` table (`recommendations`, a JSON-encoded list
in the source, is kept as the list it encodes). -/
structure AnalysisRow where
  id : ℕ
  timestamp : ℤ
  reading_id : ℕ
  analysis : List Char
  status : String
  recommendations : List (List Char)
  response_ms : ℕ
  deriving Repr, DecidableEq

/-- The SQLite database: both tables, rows in insertion order with
store-assigned increasing ids. -/
structure DB where
  readings : List ReadingRow
  analyses : List AnalysisRow
  deriving Repr, DecidableEq

/-- The dict `call_ai` returns on success. -/
structure AIResult where
  analysis : List Char
  status : String
  recommendations : List (List Char)
  response_ms : ℕ
  deriving Repr, DecidableEq

/-- The JSON response of `POST /sensor_data` (lines 185-195). -/
structure IngestResponse where
  id : ℕ
  timestamp : ℤ
  TDS : ℚ
  temperature : ℚ
  is_safe : Bool
  ai_triggered : Bool
  severity : String
  issues : List String
  analysis : Option AIResult
  deriving Repr, DecidableEq

/-- Outcome of `receive_data`: the database after the request, the JSON
response, and how many times `model.generate_content` was invoked. -/
structure IngestResult where
  db : DB
  response : IngestResponse
  generateContentCalls : ℕ
  deriving Repr, DecidableEq

/-- `call_ai(data, severity, issues, reading_id, db)`. The external
Gemini round-trip is an oracle `aiOutcome`: `.ok text` is a successful
`generate_content` response, `.error e` any exception raised by the call.
On error the `except` branch returns `None` and stores nothing; exactly
one `generate_content` invocation happens either way. -/
def call_ai (severity : String) (reading_id : ℕ) (db : DB)
    (aiOutcome : Except String (List Char)) (response_ms : ℕ) (now : ℤ) :
    DB × Option AIResult × ℕ :=
  match aiOutcome with
  | .error _ => (db, none, 1)
  | .ok analysis_text =>
    let recs := final_recs analysis_text
    let row : AnalysisRow :=
      { id := db.analyses.length + 1, timestamp := now, reading_id := reading_id,
        analysis := analysis_text, status := severity,
        recommendations := recs, response_ms := response_ms }
    ({ db with analyses := db.analyses ++ [row] },
     some { analysis := analysis_text, status := severity,
            recommendations := recs, response_ms := response_ms },
     1)

/-- The cost gate of line 157: `data.TDS > 1000 and GEMINI_API_KEY`
(a Python string is truthy iff non-empty). -/
def should_call_ai (tds : ℚ) (geminiKey : String) : Bool :=
  decide (tds > 1000) && !(geminiKey == "")

/-- The default high-TDS issue string of line 179. -/
def highTdsIssue (tds : ℚ) : String :=
  "TDS " ++ toString tds ++ " ppm - High TDS detected (>1000 ppm). Immediate scale risk."

/-- The default-issue synthesis of lines 178-179: when the gate passed but
the classifier produced no issues, append the high-TDS issue string. -/
def ai_issues (tds : ℚ) (issues : List String) : List String :=
  if issues.isEmpty then issues ++ [highTdsIssue tds] else issues

/-- The `Reading` row `receive_data` persists (lines 160-165). -/
def storedReading (tds temp : ℚ) (db : DB) (now : ℤ) : ReadingRow :=
  let res := check_thresholds tds temp
  { id := db.readings.length + 1, timestamp := now, TDS := tds, temperature := temp,
    is_safe := res.2.1 == "safe", ai_triggered := res.1 }

/-- `receive_data(data, db)` for `POST /sensor_data` (lines 150-195):
classify, persist the reading, run the cost gate, optionally call the AI,
and build the JSON response. -/
def receive_data (tds temp : ℚ) (geminiKey : String) (db : DB)
    (aiOutcome : Except String (List Char)) (response_ms : ℕ) (now : ℤ) :
    IngestResult :=
  let res := check_thresholds tds temp
  let should_trigger := res.1
  let severity := res.2.1
  let issues := res.2.2
  let reading := storedReading tds temp db now
  let db := { db with readings := db.readings ++ [reading] }
  if should_call_ai tds geminiKey then
    let issues := ai_issues tds issues
    let r := call_ai severity reading.id db aiOutcome response_ms now
    { db := r.1,
      response :=
        { id := reading.id, timestamp := reading.timestamp, TDS := reading.TDS,
          temperature := reading.temperature, is_safe := reading.is_safe,
          ai_triggered := should_trigger, severity := severity, issues := issues,
          analysis := r.2.1 },
      generateContentCalls := r.2.2 }
  else
    { db := db,
      response :=
        { id := reading.id, timestamp := reading.timestamp, TDS := reading.TDS,
          temperature := reading.temperature, is_safe := reading.is_safe,
          ai_triggered := should_trigger, severity := severity, issues := issues,
          analysis := none },
      generateContentCalls := 0 }

/-! ### Query and clear endpoints -/

/-- One element of the `data` list returned by `GET /readings/history`. -/
structure HistoryItem where
  timestamp : ℤ
  TDS : ℚ
  temperature : ℚ
  is_safe : Bool
  deriving Repr, DecidableEq

/-- The response of `GET /readings/history` (lines 307-325). -/
structure HistoryResponse where
  count : ℕ
  hours : ℤ
  data : List HistoryItem
  deriving Repr, DecidableEq

/-- `history(hours, db)`: readings with `timestamp >= now - hours`,
in ascending timestamp order (insertion order is already ascending). -/
def history (db : DB) (hours : ℤ) (now : ℤ) : HistoryResponse :=
  let since := now - hours
  let rs := db.readings.filter (fun r => since ≤ r.timestamp)
  { count := rs.length, hours := hours,
    data := rs.map (fun r =>
      { timestamp := r.timestamp, TDS := r.TDS, temperature := r.temperature,
        is_safe := r.is_safe }) }

/-- `clear_data(db)` for `DELETE /data/clear` (lines 380-386): deletes
every `Analysis` and every `Reading` row. -/
def clear_data (_db : DB) : DB :=
  { readings := [], analyses := [] }

/-- Numeric rank of a severity string along the order
safe (0) < warning (1) < critical (2). -/
def srank (s : String) : ℕ :=
  if s = "critical" then 2 else if s = "warning" then 1 else 0

/-! ## Characterization lemmas for the classifier -/

/-- Unfolding of the TDS chain on the initial `(issues, severity)` state. -/
theorem tdsStep_init (tds : ℚ) :
    tdsStep tds ([], "safe") =
      if tds < 60 then ([tdsTooLowIssue tds], "warning")
      else if tds > 1500 then ([tdsCriticalIssue tds], "critical")
      else if tds > 1200 then ([tdsWarningIssue tds], "warning")
      else if tds > 500 then ([tdsAboveOptimalIssue tds], "warning")
      else ([], "safe") := rfl

/-- Unfolding of the temperature chain on an arbitrary state. -/
theorem tempStep_eq (temp : ℚ) (st : List String × String) :
    tempStep temp st =
      if temp < 10 ∨ temp > 35 then (st.1 ++ [tempCriticalIssue temp], "critical")
      else if temp < 15 ∨ temp > 32 then
        (st.1 ++ [tempWarningIssue temp], if st.2 = "safe" then "warning" else st.2)
      else if temp > 27 then
        (st.1 ++ [tempAboveOptimalIssue temp], if st.2 = "safe" then "warning" else st.2)
      else st := rfl

/-- The severity component of `check_thresholds`. -/
theorem check_sev (tds temp : ℚ) :
    (check_thresholds tds temp).2.1 = (tempStep temp (tdsStep tds ([], "safe"))).2 := rfl

/-- The issues component of `check_thresholds`. -/
theorem check_issues (tds temp : ℚ) :
    (check_thresholds tds temp).2.2 = (tempStep temp (tdsStep tds ([], "safe"))).1 := rfl

/-- The `should_trigger_ai` component of `check_thresholds`. -/
theorem check_trigger (tds temp : ℚ) :
    (check_thresholds tds temp).1 = ((tempStep temp (tdsStep tds ([], "safe"))).2 != "safe") := rfl

/-- The temperature chain never turns a non-safe severity back into safe. -/
theorem tempStep_ne_safe (temp : ℚ) (st : List String × String)
    (h : st.2 ≠ "safe") : (tempStep temp st).2 ≠ "safe" := by
  rw [tempStep_eq]
  split_ifs with h1 h2 h3 <;> simp_all

/-- Inside the optimal TDS band the TDS chain leaves the state alone. -/
theorem tdsStep_safe (tds : ℚ) (h1 : ¬ tds < 60) (h2 : ¬ tds > 500) :
    tdsStep tds ([], "safe") = ([], "safe") := by
  rw [tdsStep_init, if_neg h1, if_neg (by push_neg at *; linarith),
    if_neg (by push_neg at *; linarith), if_neg h2]

/-- Inside the optimal temperature band the temperature chain leaves the
state alone. -/
theorem tempStep_keep (temp : ℚ) (st : List String × String)
    (h1 : ¬ (temp < 10 ∨ temp > 35)) (h2 : ¬ (temp < 15 ∨ temp > 32))
    (h3 : ¬ temp > 27) : tempStep temp st = st := by
  rw [tempStep_eq, if_neg h1, if_neg h2, if_neg h3]

/-- The TDS chain contributes at most one issue. -/
theorem tdsStep_len (tds : ℚ) : (tdsStep tds ([], "safe")).1.length ≤ 1 := by
  rw [tdsStep_init]; split_ifs <;> simp

/-- The temperature chain contributes at most one issue. -/
theorem tempStep_len (temp : ℚ) (st : List String × String) :
    (tempStep temp st).1.length ≤ st.1.length + 1 := by
  rw [tempStep_eq]; split_ifs <;> simp

/-- After the TDS chain, severity is safe exactly when no issue was found. -/
theorem tdsStep_safe_iff (tds : ℚ) :
    ((tdsStep tds ([], "safe")).2 = "safe" ↔ (tdsStep tds ([], "safe")).1 = []) := by
  rw [tdsStep_init]; split_ifs <;> simp

/-- The temperature chain preserves the safe-iff-no-issues invariant. -/
theorem tempStep_safe_iff (temp : ℚ) (st : List String × String)
    (h : st.2 = "safe" ↔ st.1 = []) :
    ((tempStep temp st).2 = "safe" ↔ (tempStep temp st).1 = []) := by
  rw [tempStep_eq]; split_ifs <;> simp_all

/-- Severity strings rank at most critical. -/
theorem srank_le_two (s : String) : srank s ≤ 2 := by
  unfold srank; split_ifs <;> omega

/-- Rank of the critical severity. -/
theorem srank_crit : srank ("critical") = 2 := rfl

/-- The temperature chain never lowers the severity rank. -/
theorem tempStep_mono (temp : ℚ) (st : List String × String) :
    srank st.2 ≤ srank (tempStep temp st).2 := by
  rw [tempStep_eq]
  split_ifs <;>
    first
      | exact le_refl _
      | exact le_of_le_of_eq (srank_le_two st.2) (srank_crit.symm)
      | simp_all [srank]

/-- Once critical, the temperature chain keeps severity critical. -/
theorem tempStep_crit (temp : ℚ) (st : List String × String)
    (h : st.2 = "critical") : (tempStep temp st).2 = "critical" := by
  rw [tempStep_eq]
  split_ifs with h1 h2 h3 <;> simp_all

/-- A temperature outside the critical bounds forces a critical severity,
no matter which TDS tier was taken. -/
theorem crit_temp (tds temp : ℚ) (h : temp < 10 ∨ 35 < temp) :
    (check_thresholds tds temp).2.1 = "critical" := by
  rw [check_sev, tempStep_eq, if_pos h]

/-! ## Claims about the threshold classifier -/

/-- Claim C2, counterexample: the claim as stated — severity is never
"safe" when TDS ≤ 60 or TDS ≥ 1500 — is false: the source guards the low
end with a strict `tds < 60`, so at exactly TDS = 60 (with temperature 22)
severity is "safe". -/
theorem tds_low_boundary_cex :
    ¬ (∀ tds temp : ℚ, tds ≤ 60 ∨ 1500 ≤ tds → (check_thresholds tds temp).2.1 ≠ "safe") :=
  fun h => h 60 22 (Or.inl le_rfl) (by decide)

/-- Claim C2, amended: for every input pair, if TDS < 60 (strictly) or
TDS ≥ 1500 then the severity returned by the threshold classifier is
never "safe", regardless of temperature. -/
theorem tds_out_of_range_not_safe (tds temp : ℚ) (h : tds < 60 ∨ 1500 ≤ tds) :
    (check_thresholds tds temp).2.1 ≠ "safe" := by
  rw [check_sev]
  apply tempStep_ne_safe
  rw [tdsStep_init]
  split_ifs with h1 h2 h3 h4 <;> simp
  rcases h with h | h
  · exact h1 h
  · exact h4 (by linarith)

/-- Witness for the amended C2 at TDS = 30, temperature = 22. -/
theorem tds_out_of_range_not_safe_witness :
    ((30 : ℚ) < 60 ∨ (1500 : ℚ) ≤ 30) ∧ (check_thresholds 30 22).2.1 ≠ "safe" :=
  ⟨Or.inl (by norm_num), tds_out_of_range_not_safe 30 22 (Or.inl (by norm_num))⟩

/-- Claim C3: for every input pair with 60 < TDS ≤ 500 and
18 ≤ temperature ≤ 27, the classifier returns severity exactly "safe". -/
theorem optimal_range_safe (tds temp : ℚ) (h1 : 60 < tds) (h2 : tds ≤ 500)
    (h3 : 18 ≤ temp) (h4 : temp ≤ 27) :
    (check_thresholds tds temp).2.1 = "safe" := by
  rw [check_sev, tempStep_keep _ _ (by push_neg; exact ⟨by linarith, by linarith⟩)
    (by push_neg; exact ⟨by linarith, by linarith⟩) (by linarith),
    tdsStep_safe _ (by linarith) (by linarith)]

/-- Witness for C3 at TDS = 300, temperature = 22. -/
theorem optimal_range_safe_witness :
    ((60 : ℚ) < 300 ∧ (300 : ℚ) ≤ 500 ∧ (18 : ℚ) ≤ 22 ∧ (22 : ℚ) ≤ 27)
      ∧ (check_thresholds 300 22).2.1 = "safe" :=
  ⟨⟨by norm_num, by norm_num, by norm_num, by norm_num⟩,
    optimal_range_safe 300 22 (by norm_num) (by norm_num) (by norm_num) (by norm_num)⟩

/-- Claim C4: within one evaluation severity only moves upward along
safe → warning → critical: the TDS chain starts from safe and never goes
below it, the temperature chain never lowers the rank of the severity it
receives, a severity already critical is never reduced by the temperature
chain, and a critical temperature forces the final severity to "critical"
regardless of which TDS tier was taken. -/
theorem severity_escalation_monotone :
    (∀ (tds : ℚ), srank ("safe") ≤ srank (tdsStep tds ([], "safe")).2)
    ∧ (∀ (temp : ℚ) (st : List String × String), srank st.2 ≤ srank (tempStep temp st).2)
    ∧ (∀ (temp : ℚ) (st : List String × String),
        st.2 = "critical" → (tempStep temp st).2 = "critical")
    ∧ (∀ tds temp : ℚ, temp < 10 ∨ 35 < temp → (check_thresholds tds temp).2.1 = "critical") :=
  ⟨fun _ => Nat.zero_le _, tempStep_mono, tempStep_crit, crit_temp⟩

/-- Witness for C4: a critical state stays critical through the
temperature chain, and TDS = 1300 (warning tier) with temperature = 40 is
raised to critical by the temperature-critical check. -/
theorem severity_escalation_monotone_witness :
    ((([] : List String), "critical").2 = "critical"
        ∧ (tempStep 20 (([] : List String), "critical")).2 = "critical")
      ∧ (((40 : ℚ) < 10 ∨ (35 : ℚ) < 40) ∧ (check_thresholds 1300 40).2.1 = "critical") :=
  ⟨⟨rfl, severity_escalation_monotone.2.2.1 20 ([], "critical") rfl⟩,
    ⟨Or.inr (by norm_num), severity_escalation_monotone.2.2.2 1300 40 (Or.inr (by norm_num))⟩⟩

/-- Claim C10: the classifier returns at most 2 issues (one per
dimension), and its `should_trigger_ai` result is true exactly when the
issue list is non-empty. -/
theorem issues_bounded_and_trigger_iff (tds temp : ℚ) :
    (check_thresholds tds temp).2.2.length ≤ 2 ∧
      ((check_thresholds tds temp).1 = true ↔ (check_thresholds tds temp).2.2 ≠ []) := by
  rw [check_issues, check_trigger]
  constructor
  · have ht := tempStep_len temp (tdsStep tds ([], "safe"))
    have hd := tdsStep_len tds
    omega
  · rw [bne_iff_ne, ne_eq, ne_eq]
    exact not_iff_not.mpr (tempStep_safe_iff temp _ (tdsStep_safe_iff tds))

/-! ## Lemmas about the ingestion endpoint -/

/-- The cost gate passes exactly when TDS exceeds 1000 and the key is a
non-empty string. -/
theorem gate_iff (tds : ℚ) (key : String) :
    should_call_ai tds key = true ↔ 1000 < tds ∧ key ≠ "" := by
  simp [should_call_ai]

/-- `call_ai` performs exactly one `generate_content` invocation, whether
the external call succeeds or raises. -/
theorem call_ai_calls (severity : String) (rid : ℕ) (db : DB)
    (ai : Except String (List Char)) (ms : ℕ) (now : ℤ) :
    (call_ai severity rid db ai ms now).2.2 = 1 := by
  cases ai <;> rfl

/-- `should_trigger_ai` is the boolean complement of `severity == "safe"`. -/
theorem trigger_eq_not_safe (tds temp : ℚ) :
    (check_thresholds tds temp).1 = !((check_thresholds tds temp).2.1 == "safe") := rfl

/-- A TDS at or below 1000 closes the cost gate for every key. -/
theorem gate_false_of_le (tds : ℚ) (key : String) (h : tds ≤ 1000) :
    should_call_ai tds key = false := by
  unfold should_call_ai
  rw [decide_eq_false (not_lt.mpr h)]
  rfl

/-- Behaviour of `receive_data` when the cost gate fails: the reading is
stored, no AI call happens, and the response carries `analysis = None`. -/
theorem receive_gate_false (tds temp : ℚ) (key : String) (db : DB)
    (ai : Except String (List Char)) (ms : ℕ) (now : ℤ)
    (h : should_call_ai tds key = false) :
    receive_data tds temp key db ai ms now =
      { db := { db with readings := db.readings ++ [storedReading tds temp db now] },
        response :=
          { id := db.readings.length + 1, timestamp := now, TDS := tds,
            temperature := temp,
            is_safe := (check_thresholds tds temp).2.1 == "safe",
            ai_triggered := (check_thresholds tds temp).1,
            severity := (check_thresholds tds temp).2.1,
            issues := (check_thresholds tds temp).2.2, analysis := none },
        generateContentCalls := 0 } := by
  simp [receive_data, h, storedReading]

/-- Behaviour of `receive_data` when the cost gate passes: the reading is
stored, the issue list is routed through `ai_issues`, and `call_ai` runs
with the stored reading's id. -/
theorem receive_gate_true (tds temp : ℚ) (key : String) (db : DB)
    (ai : Except String (List Char)) (ms : ℕ) (now : ℤ)
    (h : should_call_ai tds key = true) :
    receive_data tds temp key db ai ms now =
      (let reading := storedReading tds temp db now
       let db2 : DB := { db with readings := db.readings ++ [reading] }
       let r := call_ai (check_thresholds tds temp).2.1 reading.id db2 ai ms now
       { db := r.1,
         response :=
           { id := reading.id, timestamp := now, TDS := tds, temperature := temp,
             is_safe := (check_thresholds tds temp).2.1 == "safe",
             ai_triggered := (check_thresholds tds temp).1,
             severity := (check_thresholds tds temp).2.1,
             issues := ai_issues tds (check_thresholds tds temp).2.2,
             analysis := r.2.1 },
         generateContentCalls := r.2.2 }) := by
  simp [receive_data, h, storedReading]

/-! ## Claims about the ingestion endpoint -/

/-- Claim C1: the AI service is invoked iff TDS > 1000 and a key is
configured — independently of severity; for every reading with TDS ≤ 1000
the response's analysis is null; and the reading TDS = 300,
temperature = 40 is classified critical with `ai_triggered = true` yet
still gets a null analysis. -/
theorem ai_gate_policy :
    (∀ (tds temp : ℚ) (key : String) (db : DB) (ai : Except String (List Char)) (ms : ℕ) (now : ℤ),
        (receive_data tds temp key db ai ms now).generateContentCalls =
          if 1000 < tds ∧ key ≠ "" then 1 else 0)
    ∧ (∀ (tds temp : ℚ) (key : String) (db : DB) (ai : Except String (List Char)) (ms : ℕ) (now : ℤ),
        tds ≤ 1000 → (receive_data tds temp key db ai ms now).response.analysis = none)
    ∧ (∀ (key : String) (db : DB) (ai : Except String (List Char)) (ms : ℕ) (now : ℤ),
        (receive_data 300 40 key db ai ms now).response.severity = "critical"
        ∧ (receive_data 300 40 key db ai ms now).response.ai_triggered = true
        ∧ (receive_data 300 40 key db ai ms now).response.analysis = none) := by
  refine ⟨fun tds temp key db ai ms now => ?_, fun tds temp key db ai ms now hle => ?_,
    fun key db ai ms now => ?_⟩
  · by_cases h : should_call_ai tds key = true
    · rw [receive_gate_true tds temp key db ai ms now h, if_pos ((gate_iff tds key).mp h)]
      simp [call_ai_calls]
    · rw [receive_gate_false tds temp key db ai ms now (by simpa using h),
        if_neg (fun hc => h ((gate_iff tds key).mpr hc))]
  · rw [receive_gate_false tds temp key db ai ms now (gate_false_of_le tds key hle)]
  · rw [receive_gate_false 300 40 key db ai ms now (gate_false_of_le 300 key (by norm_num))]
    exact ⟨(by decide : (check_thresholds 300 40).2.1 = "critical"),
      (by decide : (check_thresholds 300 40).1 = true), rfl⟩

/-- Witness for C1 at TDS = 300, temperature = 40, configured key. -/
theorem ai_gate_policy_witness :
    (300 : ℚ) ≤ 1000
      ∧ (receive_data 300 40 "key" ⟨[], []⟩ (.ok ("IMPACT".data)) 5 0).response.analysis = none :=
  ⟨by norm_num, ai_gate_policy.2.1 300 40 "key" ⟨[], []⟩ (.ok ("IMPACT".data)) 5 0 (by norm_num)⟩

/-- Claim C5: when the classifier's issue list is empty, the synthesis
step produces exactly the single default high-TDS issue; the synthesized
list is never empty; and whenever the cost gate passes, the issue list
handed to the AI call (and echoed in the response) is the synthesized,
non-empty one. -/
theorem default_issue_synthesis :
    (∀ tds : ℚ, ai_issues tds [] = [highTdsIssue tds])
    ∧ (∀ (tds : ℚ) (issues : List String), ai_issues tds issues ≠ [])
    ∧ (∀ (tds temp : ℚ) (key : String) (db : DB) (ai : Except String (List Char)) (ms : ℕ) (now : ℤ),
        should_call_ai tds key = true →
          (receive_data tds temp key db ai ms now).response.issues =
              ai_issues tds (check_thresholds tds temp).2.2
            ∧ (receive_data tds temp key db ai ms now).response.issues ≠ []) := by
  have h2 : ∀ (tds : ℚ) (issues : List String), ai_issues tds issues ≠ [] := by
    intro tds issues
    unfold ai_issues
    split_ifs with h <;> simp_all
  refine ⟨fun tds => by simp [ai_issues], h2, fun tds temp key db ai ms now h => ?_⟩
  rw [receive_gate_true tds temp key db ai ms now h]
  exact ⟨rfl, h2 tds _⟩

/-- Witness for C5 at TDS = 1100, temperature = 22, configured key. -/
theorem default_issue_synthesis_witness :
    should_call_ai 1100 "key" = true
      ∧ (receive_data 1100 22 "key" ⟨[], []⟩ (.ok ("IMPACT".data)) 5 0).response.issues =
          ai_issues 1100 (check_thresholds 1100 22).2.2
      ∧ (receive_data 1100 22 "key" ⟨[], []⟩ (.ok ("IMPACT".data)) 5 0).response.issues ≠ [] :=
  ⟨by decide,
    (default_issue_synthesis.2.2 1100 22 "key" ⟨[], []⟩ (.ok ("IMPACT".data)) 5 0 (by decide)).1,
    (default_issue_synthesis.2.2 1100 22 "key" ⟨[], []⟩ (.ok ("IMPACT".data)) 5 0 (by decide)).2⟩

/-- Claim C7: when the external AI call raises, the request still
succeeds with a null analysis and the reading's own fields, the persisted
reading remains stored, no analysis row is created, and the external call
is made at most once (no retry). -/
theorem ai_error_resilience (tds temp : ℚ) (key : String) (db : DB) (e : String)
    (ms : ℕ) (now : ℤ) :
    (receive_data tds temp key db (.error e) ms now).response.analysis = none
    ∧ (receive_data tds temp key db (.error e) ms now).db.readings
        = db.readings ++ [storedReading tds temp db now]
    ∧ (receive_data tds temp key db (.error e) ms now).db.analyses = db.analyses
    ∧ (receive_data tds temp key db (.error e) ms now).generateContentCalls ≤ 1
    ∧ (receive_data tds temp key db (.error e) ms now).response.TDS = tds
    ∧ (receive_data tds temp key db (.error e) ms now).response.temperature = temp := by
  by_cases h : should_call_ai tds key = true
  · rw [receive_gate_true tds temp key db (.error e) ms now h]
    simp [call_ai, storedReading]
  · rw [receive_gate_false tds temp key db (.error e) ms now (by simpa using h)]
    simp [storedReading]

/-- Claim C9: in the response and in the stored row, `ai_triggered` is
the exact boolean complement of `is_safe`. -/
theorem ai_triggered_complements_is_safe (tds temp : ℚ) (key : String) (db : DB)
    (ai : Except String (List Char)) (ms : ℕ) (now : ℤ) :
    (receive_data tds temp key db ai ms now).response.ai_triggered
        = !(receive_data tds temp key db ai ms now).response.is_safe
    ∧ (storedReading tds temp db now).ai_triggered
        = !(storedReading tds temp db now).is_safe := by
  constructor
  · by_cases h : should_call_ai tds key = true
    · rw [receive_gate_true tds temp key db ai ms now h]
      exact trigger_eq_not_safe tds temp
    · rw [receive_gate_false tds temp key db ai ms now (by simpa using h)]
      exact trigger_eq_not_safe tds temp
  · exact trigger_eq_not_safe tds temp

/-- Claim C8: clearing all data and then querying history over any
lookback window yields count 0 and an empty data list. -/
theorem clear_then_history_empty (db : DB) (hours now : ℤ) :
    history (clear_data db) hours now = { count := 0, hours := hours, data := [] } := by
  simp [history, clear_data]

/-- Claim C6: the text "ACTIONS:" followed by "1. Flush filter" and
"2. Recalibrate sensor" parses to exactly those two recommendations with
enumeration stripped (also with a lower-case marker, which is matched
case-insensitively); when zero recommendations parse, the fixed 3-item
fallback list is substituted; and at most 3 recommendations are ever
kept. -/
theorem recommendation_extraction_spec :
    final_recs ("ACTIONS:\n1. Flush filter\n2. Recalibrate sensor".data)
        = ["Flush filter".data, "Recalibrate sensor".data]
    ∧ final_recs ("IMPACT:\nnone\nactions:\n1. Flush filter\n2. Recalibrate sensor".data)
        = ["Flush filter".data, "Recalibrate sensor".data]
    ∧ (∀ text : List Char, extract_recs text = [] → final_recs text = fallback_recs)
    ∧ (∀ text : List Char, (final_recs text).length ≤ 3) := by
  refine ⟨by decide, by decide, fun text h => ?_, fun text => ?_⟩
  · simp only [final_recs, h]
    rfl
  · unfold final_recs
    apply List.length_take_le

/-- Witness for C6 on a text with no "ACTIONS:" marker. -/
theorem recommendation_extraction_spec_witness :
    extract_recs ("no marker here".data) = []
      ∧ final_recs ("no marker here".data) = fallback_recs :=
  ⟨by decide, recommendation_extraction_spec.2.2.1 ("no marker here".data) (by decide)⟩

end WaterGuardian
